import Mathlib

/-!
Shallow embedding of the streaming core of the go-tfe client library
(src/event.go, src/plan.go, src/unnamed/part_000), with theorems checking
the natural-language specification against it.

The embedding translates the Go source directly:
  - the event subscription (src/event.go): event types, the Subscribe
    dial, the background delivery goroutine, and Close;
  - the plan log reader construction (src/plan.go Logs) and its
    completion predicate;
  - the Runs operations and validStringID (src/unnamed/part_000).
External library calls (websocket dial and reads, json.Unmarshal,
url.Parse, the HTTP round trip) are passed in as explicit function
arguments, so every definition stays executable.
-/

/-! ## Event types (src/event.go lines 11-32) -/

/-- From src/event.go line 27: type EventType string. -/
abbrev EventType := String

def EventOrganizationCreated : EventType := "organization_created"

def EventOrganizationDeleted : EventType := "organization_deleted"

def EventWorkspaceCreated : EventType := "workspace_created"

def EventWorkspaceDeleted : EventType := "workspace_deleted"

def EventRunCreated : EventType := "run_created"

def EventRunCompleted : EventType := "run_completed"

def EventRunCanceled : EventType := "run_canceled"

def EventRunApplied : EventType := "run_applied"

def EventRunPlanned : EventType := "run_planned"

def EventRunPlannedAndFinished : EventType := "run_planned_and_finished"

def EventPlanQueued : EventType := "plan_queued"

def EventApplyQueued : EventType := "apply_queued"

def EventError : EventType := "error"

/-- All EventType constants defined by src/event.go lines 11-25, in source
order. -/
def allEventTypeConstants : List EventType :=
  [EventOrganizationCreated, EventOrganizationDeleted,
   EventWorkspaceCreated, EventWorkspaceDeleted,
   EventRunCreated, EventRunCompleted, EventRunCanceled,
   EventRunApplied, EventRunPlanned, EventRunPlannedAndFinished,
   EventPlanQueued, EventApplyQueued, EventError]

/-- Modelled from the spec for the refinement check of the event-type set:
the tags the spec enumerates (organization/workspace created or deleted,
run created/completed/canceled/applied/planned, plan/apply queued, and the
synthetic error marker). -/
def specListedEventTags : List EventType :=
  [EventOrganizationCreated, EventOrganizationDeleted,
   EventWorkspaceCreated, EventWorkspaceDeleted,
   EventRunCreated, EventRunCompleted, EventRunCanceled,
   EventRunApplied, EventRunPlanned,
   EventPlanQueued, EventApplyQueued, EventError]

/-- The payload of an Event is interface\x7b\x7d in Go: an opaque decoded
value. Synthetic error events carry a string; decoded payloads are modelled
as opaque values. -/
inductive Payload where
  | str (s : String)
  | raw (n : Nat)
deriving DecidableEq, Repr

/-- From src/event.go lines 29-32: an Event has a type tag and a payload.
The Go field name Type is a Lean keyword, hence the lowercase field. -/
structure Event where
  type : EventType
  payload : Payload
deriving DecidableEq, Repr

/-! ## The Subscribe delivery goroutine (src/event.go lines 58-88)

A frame received on the websocket connection is either a message body or a
read error (the error branch of conn.ReadMessage). json.Unmarshal is passed
in as a decode function returning the decoded Event or the error message.
The goroutine body is translated as a trace of the operations it performs:
read a frame, send an event on the channel, close the connection (the defer
on loop exit). The channel is never closed by the source, but a close-chan
operation is in the alphabet so that its absence is a statement, not a
typing accident. -/

inductive Frame where
  | msg (m : String)
  | readErr (e : String)
deriving DecidableEq, Repr

inductive LoopOp where
  | readMsg
  | send (ev : Event)
  | closeConn
  | closeChan
  | writeClose
deriving DecidableEq, Repr

/-- From src/event.go line 73: the synthetic payload for a read failure. -/
def readErrMsg (e : String) : String := "websocket read error: " ++ e ++ "\n"

/-- From src/event.go line 79: the synthetic payload for a decode failure. -/
def decodeErrMsg (e : String) : String := "websocket decode error: " ++ e ++ "\n"

/-- The background goroutine of Subscribe (src/event.go lines 67-85), as the
trace of operations it performs while consuming the given frames. An empty
remainder means the goroutine is still blocked in ReadMessage. -/
def loopTrace (dec : String → Except String Event) : List Frame → List LoopOp
  | [] => []
  | Frame.readErr e :: _ =>
      [LoopOp.readMsg, LoopOp.send ⟨EventError, Payload.str (readErrMsg e)⟩,
       LoopOp.closeConn]
  | Frame.msg m :: rest =>
      LoopOp.readMsg ::
        match dec m with
        | Except.error e =>
            [LoopOp.send ⟨EventError, Payload.str (decodeErrMsg e)⟩,
             LoopOp.closeConn]
        | Except.ok ev => LoopOp.send ev :: loopTrace dec rest

/-- The event a trace operation sends on the subscription channel, if any. -/
def sentEvent : LoopOp → Option Event
  | LoopOp.send ev => some ev
  | _ => none

/-- The events the goroutine forwards into the subscription channel, in
order: the sends of its trace. -/
def deliverLoop (dec : String → Except String Event) (frames : List Frame) :
    List Event :=
  (loopTrace dec frames).filterMap sentEvent

/-- Successful decoding of a frame (src/event.go lines 71-81): a message
frame whose json.Unmarshal succeeds. -/
def decodeFrame (dec : String → Except String Event) : Frame → Option Event
  | Frame.readErr _ => none
  | Frame.msg m => (dec m).toOption

/-- A frame the goroutine handles without hitting the error branches. -/
def frameOk (dec : String → Except String Event) : Frame → Bool
  | Frame.readErr _ => false
  | Frame.msg m =>
      match dec m with
      | Except.ok _ => true
      | Except.error _ => false

theorem frameOk_iff (dec : String → Except String Event) (f : Frame) :
    frameOk dec f = true ↔ ∃ ev, decodeFrame dec f = some ev := by
  cases f with
  | readErr e => simp [frameOk, decodeFrame]
  | msg m =>
      cases h : dec m with
      | ok ev => simp [frameOk, decodeFrame, h, Except.toOption]
      | error e => simp [frameOk, decodeFrame, h, Except.toOption]

theorem deliverLoop_nil (dec : String → Except String Event) :
    deliverLoop dec [] = [] := rfl

theorem deliverLoop_ok_cons (dec : String → Except String Event)
    (m : String) (ev : Event) (rest : List Frame) (h : dec m = Except.ok ev) :
    deliverLoop dec (Frame.msg m :: rest) = ev :: deliverLoop dec rest := by
  simp [deliverLoop, loopTrace, h, sentEvent, List.filterMap]

/-- A decode function used by the concrete witnesses below. -/
def dec0 : String → Except String Event
  | "a" => Except.ok ⟨EventOrganizationCreated, Payload.raw 1⟩
  | "b" => Except.ok ⟨EventRunCreated, Payload.raw 2⟩
  | "c" => Except.ok ⟨EventPlanQueued, Payload.raw 3⟩
  | s => Except.error ("invalid character at " ++ s)

/-- C1: for every sequence of frames that all decode successfully, the
background delivery task forwards exactly one event per frame, each the
decode of the corresponding frame, in the order the frames were received:
no loss, no duplication, no reordering. -/
theorem subscribe_forwards_all_decoded_frames_in_order
    (dec : String → Except String Event) (frames : List Frame)
    (h : frames.all (frameOk dec) = true) :
    deliverLoop dec frames = frames.filterMap (decodeFrame dec) ∧
    (deliverLoop dec frames).length = frames.length := by
  induction frames with
  | nil => exact ⟨rfl, rfl⟩
  | cons f rest ih =>
      have hf : frameOk dec f = true := by
        have := List.all_eq_true.mp h
        exact this f (List.mem_cons_self f rest)
      have hrest : rest.all (frameOk dec) = true := by
        apply List.all_eq_true.mpr
        intro x hx
        exact List.all_eq_true.mp h x (List.mem_cons_of_mem f hx)
      obtain ⟨ih1, ih2⟩ := ih hrest
      cases f with
      | readErr e => simp [frameOk] at hf
      | msg m =>
          cases hm : dec m with
          | error e => simp [frameOk, hm] at hf
          | ok ev =>
              constructor
              · rw [deliverLoop_ok_cons dec m ev rest hm, ih1]
                simp [decodeFrame, hm, Except.toOption]
              · rw [deliverLoop_ok_cons dec m ev rest hm]
                simp only [List.length_cons, ih2]

theorem subscribe_forwards_all_decoded_frames_in_order_witness :
    deliverLoop dec0 [Frame.msg "a", Frame.msg "b", Frame.msg "c"] =
      ([Frame.msg "a", Frame.msg "b", Frame.msg "c"].filterMap
        (decodeFrame dec0)) ∧
    (deliverLoop dec0 [Frame.msg "a", Frame.msg "b", Frame.msg "c"]).length =
      ([Frame.msg "a", Frame.msg "b", Frame.msg "c"] : List Frame).length :=
  subscribe_forwards_all_decoded_frames_in_order dec0
    [Frame.msg "a", Frame.msg "b", Frame.msg "c"] (by decide)

/-- The synthetic error payload the goroutine sends when a frame fails
(src/event.go lines 73 and 79). -/
def failPayload (dec : String → Except String Event) : Frame → String
  | Frame.readErr e => readErrMsg e
  | Frame.msg m =>
      match dec m with
      | Except.error e => decodeErrMsg e
      | Except.ok _ => ""

theorem deliverLoop_append_ok (dec : String → Except String Event)
    (good fs : List Frame) (h : good.all (frameOk dec) = true) :
    deliverLoop dec (good ++ fs) =
      good.filterMap (decodeFrame dec) ++ deliverLoop dec fs := by
  induction good with
  | nil => simp
  | cons f rest ih =>
      have hf : frameOk dec f = true :=
        List.all_eq_true.mp h f (List.mem_cons_self f rest)
      have hrest : rest.all (frameOk dec) = true := by
        apply List.all_eq_true.mpr
        intro x hx
        exact List.all_eq_true.mp h x (List.mem_cons_of_mem f hx)
      cases f with
      | readErr e => simp [frameOk] at hf
      | msg m =>
          cases hm : dec m with
          | error e => simp [frameOk, hm] at hf
          | ok ev =>
              have h1 : deliverLoop dec (Frame.msg m :: (rest ++ fs)) =
                  ev :: deliverLoop dec (rest ++ fs) :=
                deliverLoop_ok_cons dec m ev (rest ++ fs) hm
              simp only [List.cons_append, h1, ih hrest, List.filterMap_cons,
                decodeFrame, hm, Except.toOption]

theorem deliverLoop_fail_cons (dec : String → Except String Event)
    (bad : Frame) (rest : List Frame) (h : frameOk dec bad = false) :
    deliverLoop dec (bad :: rest) =
      [⟨EventError, Payload.str (failPayload dec bad)⟩] := by
  cases bad with
  | readErr e => simp [deliverLoop, loopTrace, sentEvent, failPayload]
  | msg m =>
      cases hm : dec m with
      | error e =>
          simp [deliverLoop, loopTrace, sentEvent, failPayload, hm]
      | ok ev => simp [frameOk, hm] at h

theorem loopTrace_no_closeChan (dec : String → Except String Event)
    (frames : List Frame) : LoopOp.closeChan ∉ loopTrace dec frames := by
  induction frames with
  | nil => simp [loopTrace]
  | cons f rest ih =>
      cases f with
      | readErr e =>
          intro hmem
          simp [loopTrace] at hmem
      | msg m =>
          cases hm : dec m with
          | error e =>
              intro hmem
              simp [loopTrace, hm] at hmem
          | ok ev =>
              intro hmem
              simp only [loopTrace, hm, List.mem_cons] at hmem
              rcases hmem with h1 | h1 | h1
              · exact LoopOp.noConfusion h1
              · exact LoopOp.noConfusion h1
              · exact ih h1

/-- C3: when the delivery task hits its first failing frame (a read failure
or a decode failure) after a run of successfully decoded frames, it
enqueues exactly one synthetic EventError event carrying the descriptive
message and exits: the delivered events do not depend on any later frames,
and the trace never closes the event queue. -/
theorem subscribe_error_path_single_error_event_then_exit
    (dec : String → Except String Event) (good : List Frame) (bad : Frame)
    (rest : List Frame) (hgood : good.all (frameOk dec) = true)
    (hbad : frameOk dec bad = false) :
    deliverLoop dec (good ++ bad :: rest) =
      good.filterMap (decodeFrame dec) ++
        [⟨EventError, Payload.str (failPayload dec bad)⟩] ∧
    deliverLoop dec (good ++ bad :: rest) = deliverLoop dec (good ++ [bad]) ∧
    LoopOp.closeChan ∉ loopTrace dec (good ++ bad :: rest) := by
  have h1 := deliverLoop_append_ok dec good (bad :: rest) hgood
  have h2 := deliverLoop_append_ok dec good [bad] hgood
  have h3 := deliverLoop_fail_cons dec bad rest hbad
  have h4 := deliverLoop_fail_cons dec bad [] hbad
  refine ⟨?_, ?_, loopTrace_no_closeChan dec (good ++ bad :: rest)⟩
  · rw [h1, h3]
  · rw [h1, h3, h2, h4]

theorem subscribe_error_path_single_error_event_then_exit_witness :
    deliverLoop dec0 ([Frame.msg "a"] ++ Frame.msg "z" :: [Frame.msg "b"]) =
      ([Frame.msg "a"] : List Frame).filterMap (decodeFrame dec0) ++
        [⟨EventError, Payload.str (failPayload dec0 (Frame.msg "z"))⟩] ∧
    deliverLoop dec0 ([Frame.msg "a"] ++ Frame.msg "z" :: [Frame.msg "b"]) =
      deliverLoop dec0 ([Frame.msg "a"] ++ [Frame.msg "z"]) ∧
    LoopOp.closeChan ∉ loopTrace dec0 ([Frame.msg "a"] ++ Frame.msg "z" :: [Frame.msg "b"]) :=
  subscribe_error_path_single_error_event_then_exit dec0 [Frame.msg "a"]
    (Frame.msg "z") [Frame.msg "b"] (by decide) (by decide)

/-! ## Close (src/event.go lines 94-102)

Close writes the close-handshake frame on the connection and returns; it
does not stop the background goroutine, close the channel, or close the
connection (the connection is closed by the goroutine defer once its read
loop exits). The combined trace of operations after a call to Close is
therefore the close-frame write followed by whatever the delivery loop
still does with the frames it subsequently reads. -/

/-- From src/event.go lines 94-102: Close returns the WriteMessage error if
the write fails, nil otherwise. -/
def subscriptionClose (writeRes : Except String Unit) : Except String Unit :=
  match writeRes with
  | Except.error e => Except.error e
  | Except.ok _ => Except.ok ()

/-- The trace of connection and channel operations from a successful Close
onward: the close-frame write, then the still-running delivery loop over
the frames the connection yields afterwards. -/
def postCloseTrace (dec : String → Except String Event)
    (remaining : List Frame) : List LoopOp :=
  LoopOp.writeClose :: loopTrace dec remaining

/-- C4 counterexample: Close returns successfully, yet an event is still
delivered on the queue afterwards — once Close has triggered the server
side to drop the connection, the still-running goroutine hits a read error
and sends one more EventError event. The claim that no further events are
ever delivered after a successful Close is therefore false. -/
theorem close_then_error_event_still_delivered :
    subscriptionClose (Except.ok ()) = Except.ok () ∧
    deliverLoop dec0 [Frame.readErr "use of closed network connection"] =
      [⟨EventError,
        Payload.str (readErrMsg "use of closed network connection")⟩] ∧
    deliverLoop dec0 [Frame.readErr "use of closed network connection"] ≠
      [] := by
  refine ⟨rfl, rfl, ?_⟩
  intro h
  simp [deliverLoop, loopTrace, sentEvent] at h

/-- C4 amended: after a successful Close, the close handshake frame is the
first operation on the connection — in particular it precedes any
connection teardown, which only the goroutine performs on loop exit — but
the background task is not stopped: the events delivered afterwards are
exactly what the delivery loop still produces from the frames it reads,
and a post-close read failure still delivers one final EventError event. -/
theorem close_sends_handshake_before_teardown_events_may_follow
    (dec : String → Except String Event) (remaining : List Frame)
    (e : String) (i : Nat)
    (hi : (postCloseTrace dec remaining)[i]? = some LoopOp.closeConn) :
    (postCloseTrace dec remaining).head? = some LoopOp.writeClose ∧
    0 < i ∧
    (postCloseTrace dec remaining).filterMap sentEvent =
      deliverLoop dec remaining ∧
    deliverLoop dec (Frame.readErr e :: remaining) =
      [⟨EventError, Payload.str (readErrMsg e)⟩] := by
  refine ⟨rfl, ?_, ?_, ?_⟩
  · cases i with
    | zero => simp [postCloseTrace] at hi
    | succ n => exact Nat.succ_pos n
  · simp [postCloseTrace, deliverLoop, sentEvent]
  · exact deliverLoop_fail_cons dec (Frame.readErr e) remaining rfl

theorem close_sends_handshake_before_teardown_events_may_follow_witness :
    (postCloseTrace dec0 [Frame.readErr "gone"]).head? =
      some LoopOp.writeClose ∧
    0 < 3 ∧
    (postCloseTrace dec0 [Frame.readErr "gone"]).filterMap sentEvent =
      deliverLoop dec0 [Frame.readErr "gone"] ∧
    deliverLoop dec0 (Frame.readErr "gone" :: [Frame.readErr "gone"]) =
      [⟨EventError, Payload.str (readErrMsg "gone")⟩] :=
  close_sends_handshake_before_teardown_events_may_follow dec0
    [Frame.readErr "gone"] "gone" 3 (by decide)

/-! ## Subscribe entry (src/event.go lines 58-63) and the channel -/

/-- From src/event.go line 59: the endpoint URL built from the client base
host, wss scheme, path /events. -/
def eventsURL (host : String) : String := "wss://" ++ host ++ "/events"

/-- From src/event.go line 65: make(chan Event) with no capacity argument
creates an unbuffered channel, capacity zero. -/
def subscriptionChanCapacity : Nat := 0

/-- From src/event.go lines 53-56: the subscription holds the connection
(an opaque handle here) and its event channel (its capacity here). -/
structure Subscription where
  conn : Nat
  chanCap : Nat
deriving DecidableEq, Repr

/-- The observable outcome of Subscribe: the returned subscription, the
returned error, and whether the background delivery task was started. -/
structure SubscribeResult where
  sub : Option Subscription
  err : Option String
  taskStarted : Bool
deriving DecidableEq, Repr

/-- From src/event.go lines 58-88: Subscribe dials the events URL; on a
dial error it returns nil and the error with no task started; on success
it makes the unbuffered channel, starts the goroutine and returns the
subscription with a nil error. The dial is the external websocket call,
passed in as a function. -/
def eventsSubscribe (host : String) (dial : String → Except String Nat) :
    SubscribeResult :=
  match dial (eventsURL host) with
  | Except.error e => { sub := none, err := some e, taskStarted := false }
  | Except.ok c =>
      { sub := some { conn := c, chanCap := subscriptionChanCapacity },
        err := none, taskStarted := true }

/-- C5: if the dial fails, Subscribe returns synchronously with the error
and no subscription, and no background task is started; if the dial
succeeds, it returns a subscription and a nil error. -/
theorem subscribe_dial_failure_sync_error (host : String)
    (dial : String → Except String Nat) :
    (∀ e, dial (eventsURL host) = Except.error e →
      eventsSubscribe host dial = ⟨none, some e, false⟩) ∧
    (∀ c, dial (eventsURL host) = Except.ok c →
      eventsSubscribe host dial =
        ⟨some ⟨c, subscriptionChanCapacity⟩, none, true⟩) := by
  constructor
  · intro e he
    simp [eventsSubscribe, he]
  · intro c hc
    simp [eventsSubscribe, hc]

/-- A send on a Go channel can complete exactly when there is free buffer
space or a receiver is ready to take the value. -/
def sendCanComplete (cap buffered : Nat) (receiverReady : Bool) : Bool :=
  decide (buffered < cap) || receiverReady

/-- C8: the per-subscription channel is unbuffered (capacity zero), so a
send on it completes exactly when the consumer is receiving — the enqueue
blocks until the consumer takes the event — and the delivery loop only
reads the next frame after the send of the current event, so a consumer
that stops reading stalls the read loop. -/
theorem subscription_channel_unbuffered_blocks_until_receive
    (dec : String → Except String Event) (m : String) (ev : Event)
    (rest : List Frame) (buffered : Nat) (ready : Bool)
    (h : dec m = Except.ok ev) :
    subscriptionChanCapacity = 0 ∧
    sendCanComplete subscriptionChanCapacity buffered ready = ready ∧
    loopTrace dec (Frame.msg m :: rest) =
      LoopOp.readMsg :: LoopOp.send ev :: loopTrace dec rest := by
  refine ⟨rfl, ?_, ?_⟩
  · simp [sendCanComplete, subscriptionChanCapacity]
  · simp [loopTrace, h]

theorem subscription_channel_unbuffered_blocks_until_receive_witness :
    subscriptionChanCapacity = 0 ∧
    sendCanComplete subscriptionChanCapacity 5 false = false ∧
    loopTrace dec0 (Frame.msg "a" :: [Frame.msg "b"]) =
      LoopOp.readMsg ::
        LoopOp.send ⟨EventOrganizationCreated, Payload.raw 1⟩ ::
          loopTrace dec0 [Frame.msg "b"] :=
  subscription_channel_unbuffered_blocks_until_receive dec0 "a"
    ⟨EventOrganizationCreated, Payload.raw 1⟩ [Frame.msg "b"] 5 false rfl

/-! ## LogReader read loop (modelled from the spec) -/

/-- The outcome of one invocation of the LogReader read operation: bytes
returned, end-of-stream, or still pending (the environment trace ran out
while the reader was waiting and retrying). -/
inductive ReadOutcome where
  | bytes (bs : List Nat)
  | eof
  | pending
deriving DecidableEq, Repr

/-- Modelled from the spec: the LogReader read operation, whose
implementation file is not under src/ (src/plan.go only constructs the
LogReader value). Per the spec's contract: each cycle fetches the next
bytes past the offset; non-empty bytes are returned immediately (never
end-of-stream); an empty fetch consults the completion predicate; if the
predicate reports non-terminal the reader waits per the backoff policy and
retries; if it reports terminal the reader performs exactly one more fetch
and signals end-of-stream only if that final fetch is also empty, otherwise
it returns those bytes and stays open. The environment is the trace of
fetch results (a byte list, nil meaning an empty fetch) paired with the
completion-predicate answer that would be given if consulted at that
cycle; fetch-error and cancellation paths, which per the spec surface
errors rather than end-of-stream, are outside this trace. -/
def logReaderRead : List (List Nat × Bool) → ReadOutcome
  | [] => ReadOutcome.pending
  | (bs, d) :: rest =>
      if bs.isEmpty then
        if d then
          match rest with
          | [] => ReadOutcome.pending
          | (bs2, _) :: _ =>
              if bs2.isEmpty then ReadOutcome.eof else ReadOutcome.bytes bs2
        else logReaderRead rest
      else ReadOutcome.bytes bs

/-- C2: the read operation signals end-of-stream only when the completion
predicate has reported terminal on an empty fetch AND the fetch performed
right after that report is also empty; in particular, while every
predicate answer in the trace is non-terminal, the operation never signals
end-of-stream, however many consecutive empty fetches occur. -/
theorem logReader_eof_requires_terminal_then_empty_fetch
    (env : List (List Nat × Bool)) :
    (logReaderRead env = ReadOutcome.eof →
      ∃ i, env[i]? = some ([], true) ∧
        (env[i + 1]?).map Prod.fst = some []) ∧
    ((∀ p ∈ env, p.2 = false) → logReaderRead env ≠ ReadOutcome.eof) := by
  induction env with
  | nil =>
      constructor
      · intro h
        simp [logReaderRead] at h
      · intro _ h
        simp [logReaderRead] at h
  | cons step rest ih =>
      obtain ⟨bs, d⟩ := step
      constructor
      · intro h
        by_cases hbs : bs.isEmpty
        · by_cases hd : d = true
          · cases rest with
            | nil => simp [logReaderRead, hbs, hd] at h
            | cons step2 rest2 =>
                obtain ⟨bs2, d2⟩ := step2
                by_cases hbs2 : bs2.isEmpty
                · refine ⟨0, ?_, ?_⟩
                  · simp [List.isEmpty_iff.mp hbs, hd]
                  · simp [List.isEmpty_iff.mp hbs2]
                · simp [logReaderRead, hbs, hd, hbs2] at h
          · have hrec : logReaderRead rest = ReadOutcome.eof := by
              simpa [logReaderRead, hbs, hd] using h
            obtain ⟨i, h1, h2⟩ := ih.1 hrec
            exact ⟨i + 1, by simpa using h1, by simpa using h2⟩
        · simp [logReaderRead, hbs] at h
      · intro hall h
        by_cases hbs : bs.isEmpty
        · have hd : d = false := hall (bs, d) (List.mem_cons_self _ _)
          have hrec : logReaderRead rest = ReadOutcome.eof := by
            simpa [logReaderRead, hbs, hd] using h
          exact ih.2 (fun p hp => hall p (List.mem_cons_of_mem _ hp)) hrec
        · simp [logReaderRead, hbs] at h

/-! ## String ID validation (src/unnamed/part_000, validations) -/

/-- A character of the common string-ID pattern: the character class of
the Go regular expression, which admits ASCII letters, digits, hyphen,
dot and underscore. -/
def isStringIDChar (c : Char) : Bool :=
  (Char.ofNat 97 ≤ c && c ≤ Char.ofNat 122) ||
  (Char.ofNat 65 ≤ c && c ≤ Char.ofNat 90) ||
  (Char.ofNat 48 ≤ c && c ≤ Char.ofNat 57) ||
  c = Char.ofNat 45 || c = Char.ofNat 46 || c = Char.ofNat 95

/-- From src/unnamed/part_000 validStringID: the pointer is non-nil and the
whole string matches the anchored pattern, i.e. it is a non-empty run of
string-ID characters. -/
def validStringID (v : Option String) : Bool :=
  match v with
  | none => false
  | some s => !s.toList.isEmpty && s.toList.all isStringIDChar

/-- From src/unnamed/part_000 validString: the pointer is non-nil and the
string non-empty. -/
def validString (v : Option String) : Bool :=
  match v with
  | none => false
  | some s => !(s == "")

/-! ## Plans (src/plan.go) -/

/-- From src/plan.go line 37: type PlanStatus string. -/
abbrev PlanStatus := String

def PlanCanceled : PlanStatus := "canceled"

def PlanCreated : PlanStatus := "created"

def PlanErrored : PlanStatus := "errored"

def PlanFinished : PlanStatus := "finished"

def PlanMFAWaiting : PlanStatus := "mfa_waiting"

def PlanPending : PlanStatus := "pending"

def PlanQueued : PlanStatus := "queued"

def PlanRunning : PlanStatus := "running"

def PlanUnreachable : PlanStatus := "unreachable"

/-- From src/plan.go lines 68-75, with the time values kept as opaque
strings. -/
structure PlanStatusTimestamps where
  CanceledAt : Option String
  ErroredAt : Option String
  FinishedAt : Option String
  ForceCanceledAt : Option String
  QueuedAt : Option String
  StartedAt : Option String
deriving DecidableEq, Repr

/-- From src/plan.go lines 53-65: a plan. The Exports relation targets a
type outside src/ and is kept as a list of opaque handles. -/
structure Plan where
  ID : String
  HasChanges : Bool
  LogReadURL : String
  ResourceAdditions : Int
  ResourceChanges : Int
  ResourceDestructions : Int
  Status : PlanStatus
  StatusTimestamps : Option PlanStatusTimestamps
  Exports : List Nat
deriving DecidableEq, Repr

/-- The terminal plan statuses of the switch in src/plan.go lines 126-131. -/
def terminalPlanStatuses : List PlanStatus :=
  [PlanCanceled, PlanErrored, PlanFinished, PlanUnreachable]

/-- From src/plan.go lines 120-132: the body of the done closure applied to
the result of re-reading the plan — false plus the error if the re-read
failed, otherwise true exactly on the terminal statuses of the switch. -/
def logsDone (readResult : Except String Plan) : Bool × Option String :=
  match readResult with
  | Except.error e => (false, some e)
  | Except.ok p =>
      if p.Status = PlanCanceled ∨ p.Status = PlanErrored ∨
         p.Status = PlanFinished ∨ p.Status = PlanUnreachable then
        (true, none)
      else (false, none)

/-- An opaque model of the value url.Parse produces. -/
structure ParsedURL where
  raw : String
deriving DecidableEq, Repr

/-- From src/plan.go lines 134-139: the LogReader value Logs returns — the
caller's context (an opaque handle), the parsed log URL, and the done
closure, which re-reads the plan by its ID and applies the terminal-status
check. -/
structure LogReaderHandle where
  ctx : Nat
  logURL : ParsedURL
  done : Unit → Bool × Option String

/-- From src/plan.go lines 99-140: Logs validates the plan ID, re-reads the
plan (the Read round trip is passed in as a function), rejects an empty
LogReadURL, parses the URL (url.Parse passed in as a function), and on
success returns the LogReader handle. -/
def plansLogs (ctx : Nat) (planID : String)
    (readPlan : String → Except String Plan)
    (parseURL : String → Except String ParsedURL) :
    Except String LogReaderHandle :=
  if validStringID (some planID) = false then
    Except.error "invalid value for plan ID"
  else
    match readPlan planID with
    | Except.error e => Except.error e
    | Except.ok p =>
        if p.LogReadURL = "" then
          Except.error ("plan " ++ planID ++ " does not have a log URL")
        else
          match parseURL p.LogReadURL with
          | Except.error e => Except.error ("invalid log URL: " ++ e)
          | Except.ok u =>
              Except.ok
                { ctx := ctx, logURL := u,
                  done := fun _ => logsDone (readPlan p.ID) }

/-- C6: the completion predicate constructed by Logs re-reads the plan and
answers true with no error exactly when the re-read plan's status is one
of canceled, errored, finished, unreachable; it answers false with no
error on every other status, and false together with the error when the
re-read itself fails. -/
theorem logs_done_predicate_terminal_statuses (ctx : Nat) (planID : String)
    (readPlan : String → Except String Plan)
    (parseURL : String → Except String ParsedURL) (p : Plan) (u : ParsedURL)
    (hid : validStringID (some planID) = true)
    (hr : readPlan planID = Except.ok p) (hurl : p.LogReadURL ≠ "")
    (hp : parseURL p.LogReadURL = Except.ok u) :
    ∃ h, plansLogs ctx planID readPlan parseURL = Except.ok h ∧
      h.done () = logsDone (readPlan p.ID) ∧
      (∀ e, readPlan p.ID = Except.error e → h.done () = (false, some e)) ∧
      (∀ q, readPlan p.ID = Except.ok q →
        h.done () = (decide (q.Status ∈ terminalPlanStatuses), none)) := by
  refine ⟨{ ctx := ctx, logURL := u,
            done := fun _ => logsDone (readPlan p.ID) }, ?_, rfl, ?_, ?_⟩
  · simp [plansLogs, hid, hr, hurl, hp]
  · intro e he
    simp [logsDone, he]
  · intro q hq
    simp only [logsDone, hq]
    by_cases hqs : q.Status ∈ terminalPlanStatuses
    · have : q.Status = PlanCanceled ∨ q.Status = PlanErrored ∨
          q.Status = PlanFinished ∨ q.Status = PlanUnreachable := by
        simpa [terminalPlanStatuses] using hqs
      simp [this, hqs]
    · have : ¬(q.Status = PlanCanceled ∨ q.Status = PlanErrored ∨
          q.Status = PlanFinished ∨ q.Status = PlanUnreachable) := by
        simpa [terminalPlanStatuses] using hqs
      simp [this, hqs]

/-- A concrete plan used by the witnesses below. -/
def plan0 : Plan :=
  { ID := "plan-1", HasChanges := true,
    LogReadURL := "https://archivist.example/logs/plan-1",
    ResourceAdditions := 1, ResourceChanges := 0, ResourceDestructions := 0,
    Status := PlanFinished, StatusTimestamps := none, Exports := [] }

/-- A concrete plan re-read round trip used by the witnesses below. -/
def readPlan0 : String → Except String Plan := fun s =>
  if s = "plan-1" then Except.ok plan0 else Except.error "resource not found"

/-- A concrete url.Parse stand-in that accepts every string. -/
def parseURL0 : String → Except String ParsedURL := fun s =>
  Except.ok ⟨s⟩

theorem logs_done_predicate_terminal_statuses_witness :
    ∃ h, plansLogs 0 "plan-1" readPlan0 parseURL0 = Except.ok h ∧
      h.done () = logsDone (readPlan0 plan0.ID) ∧
      (∀ e, readPlan0 plan0.ID = Except.error e → h.done () = (false, some e)) ∧
      (∀ q, readPlan0 plan0.ID = Except.ok q →
        h.done () = (decide (q.Status ∈ terminalPlanStatuses), none)) :=
  logs_done_predicate_terminal_statuses 0 "plan-1" readPlan0 parseURL0 plan0
    ⟨"https://archivist.example/logs/plan-1"⟩ (by decide) rfl
    (by decide) rfl

/-- C9: Logs returns an error when the plan ID fails string-ID validation,
when the re-read fails, when the read plan carries an empty LogReadURL, or
when the URL does not parse; only when all four checks pass does it return
the LogReader handle carrying the parsed URL, the caller's context and the
completion predicate. -/
theorem plans_logs_error_cases_and_success (ctx : Nat) (planID : String)
    (readPlan : String → Except String Plan)
    (parseURL : String → Except String ParsedURL) :
    (validStringID (some planID) = false →
      plansLogs ctx planID readPlan parseURL =
        Except.error "invalid value for plan ID") ∧
    (∀ e, validStringID (some planID) = true →
      readPlan planID = Except.error e →
      plansLogs ctx planID readPlan parseURL = Except.error e) ∧
    (∀ p, validStringID (some planID) = true →
      readPlan planID = Except.ok p → p.LogReadURL = "" →
      plansLogs ctx planID readPlan parseURL =
        Except.error ("plan " ++ planID ++ " does not have a log URL")) ∧
    (∀ p e, validStringID (some planID) = true →
      readPlan planID = Except.ok p → p.LogReadURL ≠ "" →
      parseURL p.LogReadURL = Except.error e →
      plansLogs ctx planID readPlan parseURL =
        Except.error ("invalid log URL: " ++ e)) ∧
    (∀ p u, validStringID (some planID) = true →
      readPlan planID = Except.ok p → p.LogReadURL ≠ "" →
      parseURL p.LogReadURL = Except.ok u →
      plansLogs ctx planID readPlan parseURL =
        Except.ok { ctx := ctx, logURL := u,
                    done := fun _ => logsDone (readPlan p.ID) }) := by
  refine ⟨?_, ?_, ?_, ?_, ?_⟩
  · intro hv
    simp [plansLogs, hv]
  · intro e hv hr
    simp [plansLogs, hv, hr]
  · intro p hv hr hu
    simp [plansLogs, hv, hr, hu]
  · intro p e hv hr hu hp
    simp [plansLogs, hv, hr, hu, hp]
  · intro p u hv hr hu hp
    simp [plansLogs, hv, hr, hu, hp]

/-! ## Runs (src/unnamed/part_000)

The request machinery is abstracted: newRequest takes the method, the path
and the rendered options payload and yields a request or an error; the do
round trip is one function per result shape. Each operation returns its
result together with the list of requests it handed to the round trip, so
that the invalid-ID short circuit (no request built, none issued) is an
observable fact. Timestamp and relation fields of Run, and the Pagination
of RunList, target types outside src/ and are kept as opaque values. -/

abbrev RunStatus := String

abbrev RunSource := String

/-- From src/unnamed/part_000 lines 121-147: the scalar attributes of a
run. -/
structure Run where
  ID : String
  CreatedAt : String
  HasChanges : Bool
  IsDestroy : Bool
  Message : String
  PositionInQueue : Int
  Refresh : Bool
  RefreshOnly : Bool
  ReplaceAddrs : List String
  Source : RunSource
  Status : RunStatus
  TargetAddrs : List String
deriving DecidableEq, Repr

/-- From src/unnamed/part_000 lines 115-118. -/
structure RunList where
  pagination : Option Nat
  Items : List Run
deriving DecidableEq, Repr

/-- The errors the Runs operations return: the two named invalid-ID errors
referenced by the source, and the wrapped request or round-trip errors. -/
inductive TfeError where
  | invalidRunID
  | invalidWorkspaceID
  | wrapped (e : String)
deriving DecidableEq, Repr

def ErrInvalidRunID : TfeError := TfeError.invalidRunID

def ErrInvalidWorkspaceID : TfeError := TfeError.invalidWorkspaceID

structure Request where
  method : String
  url : String
  body : String
deriving DecidableEq, Repr

/-- From the ListOptions the source embeds in RunListOptions. -/
structure ListOptions where
  PageNumber : Option Int
  PageSize : Option Int
deriving DecidableEq, Repr

/-- From src/unnamed/part_000 lines 188-194. -/
structure RunListOptions where
  listOptions : ListOptions
  Include : Option String
deriving DecidableEq, Repr

/-- From src/unnamed/part_000 lines 300-302. -/
structure RunReadOptions where
  Include : String
deriving DecidableEq, Repr

/-- From src/unnamed/part_000 lines 326-329. -/
structure RunApplyOptions where
  Comment : Option String
deriving DecidableEq, Repr

/-- From src/unnamed/part_000 lines 347-350. -/
structure RunCancelOptions where
  Comment : Option String
deriving DecidableEq, Repr

/-- From src/unnamed/part_000 lines 368-371. -/
structure RunForceCancelOptions where
  Comment : Option String
deriving DecidableEq, Repr

/-- From src/unnamed/part_000 lines 389-392. -/
structure RunDiscardOptions where
  Comment : Option String
deriving DecidableEq, Repr

/-- The abstracted client request machinery the Runs operations use. -/
structure RunsEnv where
  newRequest : String → String → String → Except String Request
  doRun : Request → Except String Run
  doRunList : Request → Except String RunList
  doNoBody : Request → Except String Unit
  escape : String → String

/-- From src/unnamed/part_000 lines 197-215: List all the runs of the given
workspace. -/
def runsList (workspaceID : String) (options : RunListOptions)
    (env : RunsEnv) : Except TfeError RunList × List Request :=
  if validStringID (some workspaceID) = false then
    (Except.error ErrInvalidWorkspaceID, [])
  else
    match env.newRequest "GET"
        ("workspaces/" ++ env.escape workspaceID ++ "/runs")
        (reprStr options) with
    | Except.error e => (Except.error (TfeError.wrapped e), [])
    | Except.ok req =>
        match env.doRunList req with
        | Except.error e => (Except.error (TfeError.wrapped e), [req])
        | Except.ok rl => (Except.ok rl, [req])

/-- From src/unnamed/part_000 lines 305-323: read a run by its ID with the
given options. -/
def runsReadWithOptions (runID : String) (options : RunReadOptions)
    (env : RunsEnv) : Except TfeError Run × List Request :=
  if validStringID (some runID) = false then
    (Except.error ErrInvalidRunID, [])
  else
    match env.newRequest "GET" ("runs/" ++ env.escape runID)
        (reprStr options) with
    | Except.error e => (Except.error (TfeError.wrapped e), [])
    | Except.ok req =>
        match env.doRun req with
        | Except.error e => (Except.error (TfeError.wrapped e), [req])
        | Except.ok r => (Except.ok r, [req])

/-- From src/unnamed/part_000 lines 295-297: Read delegates to
ReadWithOptions with the zero-value options. -/
def runsRead (runID : String) (env : RunsEnv) :
    Except TfeError Run × List Request :=
  runsReadWithOptions runID { Include := "" } env

/-- From src/unnamed/part_000 lines 332-344: apply a run by its ID. -/
def runsApply (runID : String) (options : RunApplyOptions) (env : RunsEnv) :
    Except TfeError Unit × List Request :=
  if validStringID (some runID) = false then
    (Except.error ErrInvalidRunID, [])
  else
    match env.newRequest "POST"
        ("runs/" ++ env.escape runID ++ "/actions/apply")
        (reprStr options) with
    | Except.error e => (Except.error (TfeError.wrapped e), [])
    | Except.ok req =>
        match env.doNoBody req with
        | Except.error e => (Except.error (TfeError.wrapped e), [req])
        | Except.ok _ => (Except.ok (), [req])

/-- From src/unnamed/part_000 lines 353-365: cancel a run by its ID. -/
def runsCancel (runID : String) (options : RunCancelOptions)
    (env : RunsEnv) : Except TfeError Unit × List Request :=
  if validStringID (some runID) = false then
    (Except.error ErrInvalidRunID, [])
  else
    match env.newRequest "POST"
        ("runs/" ++ env.escape runID ++ "/actions/cancel")
        (reprStr options) with
    | Except.error e => (Except.error (TfeError.wrapped e), [])
    | Except.ok req =>
        match env.doNoBody req with
        | Except.error e => (Except.error (TfeError.wrapped e), [req])
        | Except.ok _ => (Except.ok (), [req])

/-- From src/unnamed/part_000 lines 374-386: force-cancel a run by its
ID. -/
def runsForceCancel (runID : String) (options : RunForceCancelOptions)
    (env : RunsEnv) : Except TfeError Unit × List Request :=
  if validStringID (some runID) = false then
    (Except.error ErrInvalidRunID, [])
  else
    match env.newRequest "POST"
        ("runs/" ++ env.escape runID ++ "/actions/force-cancel")
        (reprStr options) with
    | Except.error e => (Except.error (TfeError.wrapped e), [])
    | Except.ok req =>
        match env.doNoBody req with
        | Except.error e => (Except.error (TfeError.wrapped e), [req])
        | Except.ok _ => (Except.ok (), [req])

/-- From src/unnamed/part_000 lines 395-407: discard a run by its ID. -/
def runsDiscard (runID : String) (options : RunDiscardOptions)
    (env : RunsEnv) : Except TfeError Unit × List Request :=
  if validStringID (some runID) = false then
    (Except.error ErrInvalidRunID, [])
  else
    match env.newRequest "POST"
        ("runs/" ++ env.escape runID ++ "/actions/discard")
        (reprStr options) with
    | Except.error e => (Except.error (TfeError.wrapped e), [])
    | Except.ok req =>
        match env.doNoBody req with
        | Except.error e => (Except.error (TfeError.wrapped e), [req])
        | Except.ok _ => (Except.ok (), [req])

/-- C10: for every string failing the identifier pattern, each ID-taking
Runs operation of the claim returns its invalid-ID error with no request
built or issued. -/
theorem runs_invalid_id_short_circuits (id : String) (env : RunsEnv)
    (ropts : RunReadOptions) (aopts : RunApplyOptions)
    (copts : RunCancelOptions) (fopts : RunForceCancelOptions)
    (dopts : RunDiscardOptions) (lopts : RunListOptions)
    (h : validStringID (some id) = false) :
    runsRead id env = (Except.error ErrInvalidRunID, []) ∧
    runsReadWithOptions id ropts env = (Except.error ErrInvalidRunID, []) ∧
    runsApply id aopts env = (Except.error ErrInvalidRunID, []) ∧
    runsCancel id copts env = (Except.error ErrInvalidRunID, []) ∧
    runsForceCancel id fopts env = (Except.error ErrInvalidRunID, []) ∧
    runsDiscard id dopts env = (Except.error ErrInvalidRunID, []) ∧
    runsList id lopts env = (Except.error ErrInvalidWorkspaceID, []) := by
  refine ⟨?_, ?_, ?_, ?_, ?_, ?_, ?_⟩
  · simp [runsRead, runsReadWithOptions, h]
  · simp [runsReadWithOptions, h]
  · simp [runsApply, h]
  · simp [runsCancel, h]
  · simp [runsForceCancel, h]
  · simp [runsDiscard, h]
  · simp [runsList, h]

/-- A concrete request environment for the witness below. -/
def runsEnv0 : RunsEnv :=
  { newRequest := fun m u b => Except.ok { method := m, url := u, body := b },
    doRun := fun _ => Except.error "no server",
    doRunList := fun _ => Except.error "no server",
    doNoBody := fun _ => Except.error "no server",
    escape := fun s => s }

theorem runs_invalid_id_short_circuits_witness :
    runsRead "" runsEnv0 = (Except.error ErrInvalidRunID, []) ∧
    runsReadWithOptions "" { Include := "" } runsEnv0 =
      (Except.error ErrInvalidRunID, []) ∧
    runsApply "" { Comment := none } runsEnv0 =
      (Except.error ErrInvalidRunID, []) ∧
    runsCancel "" { Comment := none } runsEnv0 =
      (Except.error ErrInvalidRunID, []) ∧
    runsForceCancel "" { Comment := none } runsEnv0 =
      (Except.error ErrInvalidRunID, []) ∧
    runsDiscard "" { Comment := none } runsEnv0 =
      (Except.error ErrInvalidRunID, []) ∧
    runsList "" { listOptions := { PageNumber := none, PageSize := none },
                  Include := none } runsEnv0 =
      (Except.error ErrInvalidWorkspaceID, []) :=
  runs_invalid_id_short_circuits "" runsEnv0 { Include := "" }
    { Comment := none } { Comment := none } { Comment := none }
    { Comment := none }
    { listOptions := { PageNumber := none, PageSize := none },
      Include := none } (by decide)

/-- C7 counterexample: the code also defines the event type constant
run_planned_and_finished, which the spec's enumerated tag list omits, so
the set of EventType constants is not exactly the listed set. -/
theorem eventType_constants_exceed_spec_list :
    EventRunPlannedAndFinished ∈ allEventTypeConstants ∧
    EventRunPlannedAndFinished ∉ specListedEventTags := by
  decide

/-- C7 amended: the EventType constants defined by the code are exactly the
tags the spec enumerates together with the additional tag
run_planned_and_finished. -/
theorem eventType_constants_match_spec_list_plus_planned_and_finished
    (t : EventType) :
    t ∈ allEventTypeConstants ↔
      t ∈ specListedEventTags ∨ t = EventRunPlannedAndFinished := by
  simp only [allEventTypeConstants, specListedEventTags, List.mem_cons,
    List.not_mem_nil, or_false]
  tauto
